import Mathlib

/-!
Shallow embedding of the orchestration pipeline of the radiology report
generator (src/radiology_report_generator.py, the "generator" variant, and
src/radiology_agent_system.py, the "agent-system" variant).

Conventions of the embedding:
* A call to the external model (`model.generate_content`) is an oracle
  `Backend : String → Nat → CallOutcome`, giving the outcome of the call
  for a given full prompt at a given attempt index.  The backend is
  deterministic (the source requests temperature 0).
* An exception raised by the backend is summarised by the boolean tests the
  source applies to `str(e).lower()` (rate-limit markers, connectivity
  markers, `isinstance(e, ValueError)` together with a `finish_reason`
  marker).
* Python exceptions escaping a repository function are modelled by
  `Except PyErr`; returning normally is `Except.ok`.
* Backoff sleeps are recorded as a list of delays instead of being
  performed.
* Python's `str.strip()` is modelled by `pyStrip` (ASCII whitespace;
  the exotic Unicode whitespace stripped by Python does not occur in any
  input considered here).
-/

namespace RadRep

/-- Model of Python's `str.strip()`: drop ASCII whitespace from both ends.
(Defined from `List.dropWhile` so that it evaluates inside the kernel.) -/
def pyStrip (s : String) : String :=
  ⟨((s.data.dropWhile Char.isWhitespace).reverse.dropWhile Char.isWhitespace).reverse⟩

/-- Model of Python's `str.upper()` on ASCII text (defined from `List.map`
so that it evaluates inside the kernel). -/
def pyUpper (s : String) : String :=
  ⟨s.data.map Char.toUpper⟩

/-- Classification of a backend exception: exactly the predicates that
`BaseAgent.generate_response_async` and `SplitterAgent.split` test on
`str(e).lower()` and on the exception's type. -/
structure GenError where
  has429QuotaRateLimit : Bool
  hasResourceExhausted : Bool
  hasConnectivityMarker : Bool
  isValueError : Bool
  hasFinishReason : Bool
deriving DecidableEq

/-- Outcome of one `model.generate_content` call: the response text, or a
raised exception. -/
inductive CallOutcome where
  | success (text : String)
  | failure (err : GenError)
deriving DecidableEq

/-- The backend oracle: outcome of the model call for a given full prompt at
a given attempt index. -/
def Backend : Type := String → Nat → CallOutcome

/-- Observable result of `BaseAgent.generate_response_async`: the string it
returns, the number of `generate_content` calls it made, and the backoff
delays it slept between attempts. -/
structure GenResult where
  text : String
  calls : Nat
  delays : List Nat
deriving DecidableEq

/-- Fallback returned after the rate-limit branch exhausts its retries. -/
def rateLimitFallback : String :=
  "Unable to generate report due to rate limiting. Please try again later."

/-- Fallback returned for a `ValueError` mentioning `finish_reason` (the
content-policy / blocked-response path of the Gemini client). -/
def finishReasonFallback : String :=
  "No significant abnormality detected based on the provided findings."

/-- Generic fallback returned for non-retryable errors. -/
def genericFallback : String :=
  "Unable to process findings. Please review input data."

/-- String returned after the `for` loop, were it ever to complete all
iterations without returning. -/
def exhaustedFallback : String :=
  "Unable to generate report after multiple attempts. Please try again later."

/-- The non-retryable tail of the except block: the `ValueError` /
`finish_reason` check followed by the generic fallback. -/
def nonRetryText (e : GenError) : String :=
  if e.isValueError && e.hasFinishReason then finishReasonFallback
  else genericFallback

/-- One execution of the `for attempt in range(self.max_retries)` loop of
`BaseAgent.generate_response_async`, parameterised by the attempt-indexed
call outcomes.  `fuel` is the number of loop iterations still available;
the loop is entered with `fuel = maxRetries` and `attempt = 0`, and the
`fuel = 0` case is the `return` placed after the loop. -/
def genAttempts (backend : Nat → CallOutcome) (maxRetries initialDelay : Nat) :
    Nat → Nat → GenResult
  | _, 0 => { text := exhaustedFallback, calls := 0, delays := [] }
  | attempt, fuel + 1 =>
    match backend attempt with
    | .success t => { text := t, calls := 1, delays := [] }
    | .failure e =>
      if e.has429QuotaRateLimit || e.hasResourceExhausted then
        if attempt < maxRetries - 1 then
          let r := genAttempts backend maxRetries initialDelay (attempt + 1) fuel
          { text := r.text, calls := r.calls + 1,
            delays := initialDelay * 2 ^ attempt :: r.delays }
        else
          { text := rateLimitFallback, calls := 1, delays := [] }
      else if e.hasConnectivityMarker && attempt < maxRetries - 1 then
        let r := genAttempts backend maxRetries initialDelay (attempt + 1) fuel
        { text := r.text, calls := r.calls + 1,
          delays := initialDelay * 2 ^ attempt :: r.delays }
      else
        { text := nonRetryText e, calls := 1, delays := [] }

/-- The prompt combination at the top of `generate_response_async`:
`f"{system_prompt}\n\n{prompt}" if system_prompt else prompt`. -/
def fullPrompt (system_prompt prompt : String) : String :=
  if system_prompt = "" then prompt else system_prompt ++ "\n\n" ++ prompt

/-- `BaseAgent.generate_response_async` (identical in both source files):
the retry loop with `max_retries` attempts and exponential backoff
`initial_delay * 2 ** attempt`.  The source constructs every agent with
`max_retries = 5` and `initial_delay = 1`. -/
def generateResponse (backend : Backend) (maxRetries initialDelay : Nat)
    (prompt system_prompt : String) : GenResult :=
  genAttempts (backend (fullPrompt system_prompt prompt)) maxRetries initialDelay 0 maxRetries

/-! ### JSON model

`json.loads` is Python standard library, external to the repository.  It is
modelled here by a small executable JSON parser.  Simplifications (noted so
that concrete evaluations stay on inputs where the model provably agrees
with `json.loads`): `\u` escapes are rejected, numbers are accepted
lexically and kept as raw text, and object keys are assumed distinct. -/

/-- JSON values, as produced by `json.loads`. -/
inductive Json where
  | null
  | bool (b : Bool)
  | num (raw : String)
  | str (s : String)
  | arr (elems : List Json)
  | obj (fields : List (String × Json))

/-- JSON insignificant whitespace. -/
def isJsonWs (c : Char) : Bool :=
  c = ' ' || c = '\t' || c = '\n' || c = '\r'

/-- Drop leading JSON whitespace. -/
def skipWs : List Char → List Char
  | [] => []
  | c :: cs => if isJsonWs c then skipWs cs else c :: cs

/-- Translation of a JSON string escape character. -/
def escChar (c : Char) : Option Char :=
  if c = '"' then some '"'
  else if c = '\\' then some '\\'
  else if c = '/' then some '/'
  else if c = 'b' then some (Char.ofNat 8)
  else if c = 'f' then some (Char.ofNat 12)
  else if c = 'n' then some '\n'
  else if c = 'r' then some '\r'
  else if c = 't' then some '\t'
  else none

/-- Parse the body of a JSON string (after the opening quote), returning the
string and the remaining input. -/
def parseStrAux (acc : List Char) : List Char → Option (String × List Char)
  | [] => none
  | c :: cs =>
    if c = '"' then some (⟨acc.reverse⟩, cs)
    else if c = '\\' then
      match cs with
      | [] => none
      | e :: cs2 =>
        match escChar e with
        | some ec => parseStrAux (ec :: acc) cs2
        | none => none
    else parseStrAux (c :: acc) cs

/-- Characters that may occur in a JSON number literal. -/
def isNumChar (c : Char) : Bool :=
  c.isDigit || c = '-' || c = '+' || c = '.' || c = 'e' || c = 'E'

/-- Expect a literal suffix (the tail of `true` / `false` / `null`). -/
def expectLit (lit : List Char) (cs : List Char) : Option (List Char) :=
  if lit.isPrefixOf cs then some (cs.drop lit.length) else none

mutual

/-- Parse one JSON value.  `fuel` bounds the recursion depth. -/
def parseVal : Nat → List Char → Option (Json × List Char)
  | 0, _ => none
  | fuel + 1, input =>
    match skipWs input with
    | [] => none
    | c :: cs =>
      if c = '\x7b' then parseObjMembers fuel cs []
      else if c = '[' then parseArrElems fuel cs []
      else if c = '"' then (parseStrAux [] cs).map fun pr => (Json.str pr.1, pr.2)
      else if c = 't' then (expectLit [ 'r', 'u', 'e'] cs).map fun r => (Json.bool true, r)
      else if c = 'f' then (expectLit [ 'a', 'l', 's', 'e'] cs).map fun r => (Json.bool false, r)
      else if c = 'n' then (expectLit [ 'u', 'l', 'l'] cs).map fun r => (Json.null, r)
      else if c.isDigit || c = '-' then
        match (c :: cs).span isNumChar with
        | (numCs, rest) => some (Json.num ⟨numCs⟩, rest)
      else none

/-- Parse the members of a JSON object, positioned after `\x7b` or after a
comma. -/
def parseObjMembers : Nat → List Char → List (String × Json) → Option (Json × List Char)
  | 0, _, _ => none
  | fuel + 1, input, acc =>
    match skipWs input with
    | [] => none
    | c :: cs =>
      if c = '\x7d' then
        if acc.isEmpty then some (Json.obj [], cs) else none
      else if c = '"' then
        match parseStrAux [] cs with
        | none => none
        | some (key, rest1) =>
          match skipWs rest1 with
          | [] => none
          | c2 :: rest2 =>
            if c2 = ':' then
              match parseVal fuel rest2 with
              | none => none
              | some (v, rest3) =>
                match skipWs rest3 with
                | [] => none
                | c3 :: rest4 =>
                  if c3 = ',' then parseObjMembers fuel rest4 ((key, v) :: acc)
                  else if c3 = '\x7d' then some (Json.obj ((key, v) :: acc).reverse, rest4)
                  else none
            else none
      else none

/-- Parse the elements of a JSON array, positioned after `[` or after a
comma. -/
def parseArrElems : Nat → List Char → List Json → Option (Json × List Char)
  | 0, _, _ => none
  | fuel + 1, input, acc =>
    match skipWs input with
    | [] => none
    | c :: cs =>
      if c = ']' then
        if acc.isEmpty then some (Json.arr [], cs) else none
      else
        match parseVal fuel (c :: cs) with
        | none => none
        | some (v, rest) =>
          match skipWs rest with
          | [] => none
          | c2 :: rest2 =>
            if c2 = ',' then parseArrElems fuel rest2 (v :: acc)
            else if c2 = ']' then some (Json.arr (v :: acc).reverse, rest2)
            else none

end

/-- Model of `json.loads`: parse a complete JSON document, requiring the
whole input (up to trailing whitespace) to be consumed. -/
def jsonParse (s : String) : Option Json :=
  match parseVal (2 * s.length + 4) s.data with
  | some (v, rest) => if skipWs rest = [] then some v else none
  | none => none

/-- Model of `re.search(r'\x7b.*\x7d', response, re.DOTALL)` followed by
`.group()`: the greedy match runs from the first opening brace to the last
closing brace, provided the latter occurs after the former. -/
def extractBraces (s : String) : Option String :=
  let cs := s.data
  match cs.findIdx? (fun c => c = '\x7b'), cs.reverse.findIdx? (fun c => c = '\x7d') with
  | some i, some jr =>
    let j := cs.length - 1 - jr
    if i < j then some ⟨(cs.take (j + 1)).drop i⟩ else none
  | _, _ => none

/-! ### Data model and the two segmentation implementations -/

/-- A Python exception escaping a repository function. -/
inductive PyErr where
  | jsonDecodeError
  | attributeError
deriving DecidableEq

/-- One entry of the `others` list: an ad hoc organ with its findings.  The
source keeps raw dicts and applies `get("organ", "Unknown")` /
`get("findings", "")` at the point of use; the embedding applies the same
defaults when converting from JSON, which is observationally equivalent. -/
structure OtherOrgan where
  organ : String
  findings : String
deriving DecidableEq

/-- The `PatientInfo` dataclass: canonical sections in their fixed order,
dynamic sections, and the free-text comment. -/
structure PatientInfo where
  liver : String := ""
  gb : String := ""
  pancreas : String := ""
  spleen : String := ""
  kidney : String := ""
  aorta : String := ""
  others : List OtherOrgan := []
  comment : String := ""
deriving DecidableEq

/-- `PatientInfo()` with all defaults: the all-empty case record. -/
def emptyPatientInfo : PatientInfo := {}

/-- Dictionary lookup on a parsed JSON object (keys assumed distinct). -/
def jLookup (k : String) : List (String × Json) → Option Json
  | [] => none
  | p :: rest => if p.1 = k then some p.2 else jLookup k rest

/-- `data.get(k, dflt)` restricted to string values; a non-string value is
replaced by the default (the source would carry the raw value and fail only
at a later `.strip()` — such values do not occur under the splitter's
response schema and are outside this model). -/
def strAt (kvs : List (String × Json)) (k dflt : String) : String :=
  match jLookup k kvs with
  | some (Json.str s) => s
  | _ => dflt

/-- One `others` entry from JSON, with the source's `get` defaults. -/
def otherOfJson : Json → OtherOrgan
  | Json.obj kvs => { organ := strAt kvs "organ" "Unknown", findings := strAt kvs "findings" "" }
  | _ => { organ := "Unknown", findings := "" }

/-- `data.get("others", [])`, converted entrywise. -/
def othersAt (kvs : List (String × Json)) : List OtherOrgan :=
  match jLookup "others" kvs with
  | some (Json.arr xs) => xs.map otherOfJson
  | _ => []

/-- The final `return PatientInfo(liver=data.get("liver", ""), ...)` of both
`split` implementations.  It sits outside every `try` block, so if the
parsed document is not a JSON object the attribute access `data.get`
raises `AttributeError` out of `split`. -/
def patientInfoOfJson : Json → Except PyErr PatientInfo
  | Json.obj kvs =>
    Except.ok
      { liver := strAt kvs "liver" ""
        gb := strAt kvs "gb" ""
        pancreas := strAt kvs "pancreas" ""
        spleen := strAt kvs "spleen" ""
        kidney := strAt kvs "kidney" ""
        aorta := strAt kvs "aorta" ""
        others := othersAt kvs
        comment := strAt kvs "comment" "" }
  | _ => Except.error PyErr.attributeError

/-- The per-agent instruction texts.  Their content (hundreds of lines of
medical phrasing rules) is out of scope; each agent's `system_prompt` is an
arbitrary string parameter of the pipeline. -/
structure AgentPrompts where
  splitter : String
  liver : String
  gb : String
  pancreas : String
  spleen : String
  kidney : String
  aorta : String
  others : String
  impression : String
deriving DecidableEq

/-- User prompt of `SplitterAgent.split` in radiology_report_generator.py. -/
def rgSplitPrompt (patient_data : String) : String :=
  "Parse this radiology patient information and extract data by body part:\n\n"
    ++ patient_data ++ "\n\nExtract the information according to the schema."

/-- User prompt of `SplitterAgent.split` in radiology_agent_system.py. -/
def aSplitPrompt (patient_data : String) : String :=
  "Parse this radiology patient information and extract data by body part:\n\n"
    ++ patient_data
    ++ "\n\nReturn a JSON object with the structure specified in your system prompt."

namespace RG

/-- `SplitterAgent.split` of radiology_report_generator.py.  Returns the
(possibly raised) result together with the number of
`model.generate_content` calls performed.  Control flow from the source:
empty input short-circuits before any call; the schema-constrained call and
the direct `json.loads(response.text)` sit in a `try` whose
`JSONDecodeError` handler returns `PatientInfo()`; a rate-limited call is
retried exactly once after a fixed 2-second sleep, any failure of the retry
(including a parse failure) returns `PatientInfo()`; any other call failure
returns `PatientInfo()`. -/
def splitRun (backend : Backend) (patient_data : String) :
    Except PyErr PatientInfo × Nat :=
  if pyStrip patient_data = "" then (Except.ok emptyPatientInfo, 0)
  else
    match backend (rgSplitPrompt patient_data) 0 with
    | CallOutcome.success text =>
      match jsonParse text with
      | some j => (patientInfoOfJson j, 1)
      | none => (Except.ok emptyPatientInfo, 1)
    | CallOutcome.failure e =>
      if e.has429QuotaRateLimit then
        match backend (rgSplitPrompt patient_data) 1 with
        | CallOutcome.success text =>
          match jsonParse text with
          | some j => (patientInfoOfJson j, 2)
          | none => (Except.ok emptyPatientInfo, 2)
        | CallOutcome.failure _ => (Except.ok emptyPatientInfo, 2)
      else (Except.ok emptyPatientInfo, 1)

end RG

namespace AgentSys

/-- `SplitterAgent.split` of radiology_agent_system.py.  There is no
empty-input check and no exception handler: the response of
`generate_response_async` is searched for a greedy `\x7b.*\x7d` substring,
that substring (or, absent one, the whole response) is fed to `json.loads`,
and a parse failure raises `JSONDecodeError` out of `split`. -/
def splitRun (backend : Backend) (ap : AgentPrompts) (patient_data : String) :
    Except PyErr PatientInfo × Nat :=
  let g := generateResponse backend 5 1 (aSplitPrompt patient_data) ap.splitter
  match extractBraces g.text with
  | some sub =>
    match jsonParse sub with
    | some j => (patientInfoOfJson j, g.calls)
    | none => (Except.error PyErr.jsonDecodeError, g.calls)
  | none =>
    match jsonParse g.text with
    | some j => (patientInfoOfJson j, g.calls)
    | none => (Except.error PyErr.jsonDecodeError, g.calls)

end AgentSys

/-! ### Dispatcher, aggregation and per-case pipeline
(`CentralAgent.process_patient_async`).  The canonical-organ prompts below
are those of radiology_report_generator.py; radiology_agent_system.py
differs only in fixed phrasing inside two of the user prompts and in the
report header, which is why the header is a parameter. -/

/-- User prompt for the liver section. -/
def liverPrompt (findings : String) : String :=
  "Generate a radiology report section for the liver based on these findings:\n\n"
    ++ findings ++ "\n\nProvide only the report text, no headers or labels."

/-- User prompt for the gallbladder section. -/
def gbPrompt (findings : String) : String :=
  "Generate a radiology report section for the gallbladder and CBD based on these findings:\n\n"
    ++ findings ++ "\n\nProvide only the report text, no headers or labels."

/-- User prompt for the pancreas section. -/
def pancreasPrompt (findings : String) : String :=
  "Generate a radiology report section for the pancreas and MPD based on these findings:\n\n"
    ++ findings ++ "\n\nProvide only the report text, no headers or labels."

/-- User prompt for the spleen section. -/
def spleenPrompt (findings : String) : String :=
  "Generate a radiology report section for the spleen based on these findings:\n\n"
    ++ findings ++ "\n\nProvide only the report text, no headers or labels."

/-- User prompt for the kidney section. -/
def kidneyPrompt (findings : String) : String :=
  "Generate a radiology report section for the kidneys based on these findings:\n\n"
    ++ findings ++ "\n\nProvide only the report text, no headers or labels."

/-- User prompt for the aorta section. -/
def aortaPrompt (findings : String) : String :=
  "Generate a radiology report section for the aorta based on these findings:\n\n"
    ++ findings ++ "\n\nProvide only the report text, no headers or labels."

/-- User prompt for a dynamic ("others") section: the findings text with the
case comment appended, as built inside the sequential others loop. -/
def othersPrompt (organ findings comment : String) : String :=
  "Generate a radiology report section for " ++ organ
    ++ " based on these findings:\n\n" ++ findings
    ++ "\nAdditional Comments: - Look at the part of the additional comments section that is relevant to "
    ++ organ ++ " findings:\n" ++ comment ++ "\n\n\nProvide only the report text."

/-- User prompt of the impression step. -/
def impressionPrompt (full_report comment : String) : String :=
  "Based on this complete radiology report, generate a professional IMPRESSION section:\n\nREPORT:\n"
    ++ full_report ++ "\n\nORIGINAL COMMENT:\n" ++ comment
    ++ "\n\nProvide only the impression text, no headers."

/-- One dispatched unit of generation work: the user prompt together with
the owning agent's system prompt. -/
structure SectionCall where
  prompt : String
  sys : String
deriving DecidableEq

/-- The text a dispatched call contributes: the result of the owning agent's
`generate_response_async` (each agent is built with `max_retries = 5`,
`initial_delay = 1`). -/
def sectionText (backend : Backend) (c : SectionCall) : String :=
  (generateResponse backend 5 1 c.prompt c.sys).text

/-- The `tasks` list built by the chain of
`if patient_info.X and patient_info.X.strip():` appends, in the source's
fixed canonical order liver, gb, pancreas, spleen, kidney, aorta. -/
def canonicalCalls (ap : AgentPrompts) (info : PatientInfo) : List SectionCall :=
  (if pyStrip info.liver = "" then [] else [⟨liverPrompt info.liver, ap.liver⟩])
    ++ (if pyStrip info.gb = "" then [] else [⟨gbPrompt info.gb, ap.gb⟩])
    ++ (if pyStrip info.pancreas = "" then [] else [⟨pancreasPrompt info.pancreas, ap.pancreas⟩])
    ++ (if pyStrip info.spleen = "" then [] else [⟨spleenPrompt info.spleen, ap.spleen⟩])
    ++ (if pyStrip info.kidney = "" then [] else [⟨kidneyPrompt info.kidney, ap.kidney⟩])
    ++ (if pyStrip info.aorta = "" then [] else [⟨aortaPrompt info.aorta, ap.aorta⟩])

/-- The canonical fields paired with the call each would dispatch, before
the emptiness filter, in canonical order. -/
def canonicalAll (ap : AgentPrompts) (info : PatientInfo) : List (String × SectionCall) :=
  [ (info.liver, ⟨liverPrompt info.liver, ap.liver⟩),
    (info.gb, ⟨gbPrompt info.gb, ap.gb⟩),
    (info.pancreas, ⟨pancreasPrompt info.pancreas, ap.pancreas⟩),
    (info.spleen, ⟨spleenPrompt info.spleen, ap.spleen⟩),
    (info.kidney, ⟨kidneyPrompt info.kidney, ap.kidney⟩),
    (info.aorta, ⟨aortaPrompt info.aorta, ap.aorta⟩) ]

/-- The dynamic-section calls of the sequential others loop: one per entry
whose findings are non-empty after stripping, in discovery order, each with
the case comment folded into its prompt. -/
def dynamicCalls (ap : AgentPrompts) (info : PatientInfo) : List SectionCall :=
  info.others.filterMap fun o =>
    if pyStrip o.findings = "" then none
    else some ⟨othersPrompt o.organ o.findings info.comment, ap.others⟩

/-- Association lookup by task position. -/
def lookupIdx (k : Nat) : List (Nat × String) → Option String
  | [] => none
  | p :: rest => if p.1 = k then some p.2 else lookupIdx k rest

/-- The (position, result) pairs of the dispatched tasks in the order in
which they complete. -/
def completionPairs (results : List String) : List Nat → List (Nat × String)
  | [] => []
  | i :: rest =>
    match results[i]? with
    | some r => (i, r) :: completionPairs results rest
    | none => completionPairs results rest

/-- Model of `asyncio.gather(*tasks)`: tasks complete in `arrival` order and
the returned list is assembled by task position. -/
def gather (results : List String) (arrival : List Nat) : List String :=
  (List.range results.length).map fun i =>
    (lookupIdx i (completionPairs results arrival)).getD ""

/-- One step of the per-case control flow, for the execution trace:
the concurrent canonical wave, each sequentially awaited dynamic call, and
the impression call. -/
inductive Event where
  | wave (tasks : List SectionCall)
  | seqCall (task : SectionCall)
  | impCall (prompt : String)
deriving DecidableEq

/-- Observable run of `CentralAgent.process_patient_async` downstream of
segmentation. -/
structure PatientRunData where
  wave : List SectionCall
  organReports : List String
  fullReport : String
  impPrompt : String
  impression : String
  report : String
  trace : List Event
deriving DecidableEq

/-- `CentralAgent.process_patient_async` from the segmentation result on:
build the canonical task list, `asyncio.gather` it (results reassembled by
position whatever the completion order `arrival`), then run each eligible
dynamic section sequentially and append its text, join everything with
blank lines, make the impression call, and fill the final report
template. -/
def processInfoRun (backend : Backend) (ap : AgentPrompts) (arrival : List Nat)
    (info : PatientInfo) (header : String) : PatientRunData :=
  let tasks := canonicalCalls ap info
  let gathered := gather (tasks.map (sectionText backend)) arrival
  let dyn := dynamicCalls ap info
  let organReports := gathered ++ dyn.map (sectionText backend)
  let fullReport := String.intercalate "\n\n" organReports
  let ipr := impressionPrompt fullReport info.comment
  let impression := (generateResponse backend 5 1 ipr ap.impression).text
  { wave := tasks
    organReports := organReports
    fullReport := fullReport
    impPrompt := ipr
    impression := impression
    report := header ++ "\n\n" ++ fullReport ++ "\n\nIMPRESSION:\n" ++ impression ++ "\n"
    trace := Event.wave tasks :: dyn.map Event.seqCall ++ [Event.impCall ipr] }

/-- The row of `'='` characters used in batch banners. -/
def eqBanner : String := ⟨List.replicate 80 '='⟩

/-- One entry of the batch input list of radiology_report_generator.py,
with the source's `get` defaults already applied. -/
structure PatientInput where
  examination_finding : String
  ultrasound_type : String
  name : String
deriving DecidableEq

/-- Observable run of `process_batch_async`: the per-case reports in input
order, the bannered blocks, the combined artifact, and the output path. -/
structure BatchRun where
  reports : List String
  blocks : List String
  combined : String
  outputFile : String
deriving DecidableEq

/-- Model of `asyncio.gather` over the per-case pipelines: if some case
raised, the first exception in completion order propagates; otherwise the
reports are assembled by case position. -/
def gatherE (results : List (Except PyErr String)) (arrival : List Nat) :
    Except PyErr (List String) :=
  match arrival.findSome? (fun i =>
      match results[i]? with
      | some (Except.error e) => some e
      | _ => none) with
  | some e => Except.error e
  | none => Except.ok (gather (results.map fun r => r.toOption.getD "") arrival)

namespace RG

/-- `process_patient_async` of radiology_report_generator.py: segmentation
followed by the dispatch pipeline, under the `ULTRASOUND {type.upper()}`
header.  A segmentation exception propagates. -/
def processPatientRun (backend : Backend) (ap : AgentPrompts) (arrival : List Nat)
    (patient_data ultrasound_type : String) : Except PyErr PatientRunData :=
  match (splitRun backend patient_data).1 with
  | Except.error e => Except.error e
  | Except.ok info =>
    Except.ok (processInfoRun backend ap arrival info
      ("ULTRASOUND " ++ pyUpper ultrasound_type))

/-- The final report string of one batch case, or its exception. -/
def caseReportE (backend : Backend) (ap : AgentPrompts) (innerArr : List Nat)
    (pd : PatientInput) : Except PyErr String :=
  (processPatientRun backend ap innerArr pd.examination_finding pd.ultrasound_type).map
    PatientRunData.report

/-- The per-case pipelines queued by `process_batch_async`, in input
order. -/
def caseReportsE (backend : Backend) (ap : AgentPrompts) (innerArr : Nat → List Nat)
    (inputs : List PatientInput) : List (Except PyErr String) :=
  ((List.range inputs.length).zip inputs).map fun pr =>
    caseReportE backend ap (innerArr pr.1) pr.2

/-- The formatting tail of `process_batch_async`: banner each report with
its case name, join with the triple-newline separator, and name the output
file. -/
def mkBatchRun (inputs : List PatientInput) (date : String) (reports : List String) :
    BatchRun :=
  let blocks := ((inputs.map PatientInput.name).zip reports).map fun pr =>
    eqBanner ++ "\nPATIENT " ++ pr.1 ++ "\n" ++ eqBanner ++ "\n\n" ++ pr.2
  { reports := reports
    blocks := blocks
    combined := String.intercalate "\n\n\n" blocks
    outputFile := "./output/radiology_reports_" ++ date ++ ".txt" }

/-- `RadiologyReportGenerator.process_batch_async` of
radiology_report_generator.py: queue one `process_patient_async` per input,
gather them (reassembled by input position whatever the batch completion
order), then format and write the combined artifact. -/
def processBatchRun (backend : Backend) (ap : AgentPrompts) (innerArr : Nat → List Nat)
    (batchArrival : List Nat) (inputs : List PatientInput) (date : String) :
    Except PyErr BatchRun :=
  match gatherE (caseReportsE backend ap innerArr inputs) batchArrival with
  | Except.error e => Except.error e
  | Except.ok reports => Except.ok (mkBatchRun inputs date reports)

end RG

namespace AgentSys

/-- `process_patient_async` of radiology_agent_system.py: segmentation
followed by the same dispatch pipeline under the fixed
`RADIOLOGY REPORT` header.  A segmentation exception propagates. -/
def processPatientRun (backend : Backend) (ap : AgentPrompts) (arrival : List Nat)
    (patient_data : String) : Except PyErr PatientRunData :=
  match (splitRun backend ap patient_data).1 with
  | Except.error e => Except.error e
  | Except.ok info => Except.ok (processInfoRun backend ap arrival info "RADIOLOGY REPORT")

/-- The per-case pipelines queued by `process_batch_async` of
radiology_agent_system.py, in input order. -/
def caseReportsE (backend : Backend) (ap : AgentPrompts) (innerArr : Nat → List Nat)
    (inputs : List String) : List (Except PyErr String) :=
  ((List.range inputs.length).zip inputs).map fun pr =>
    (processPatientRun backend ap (innerArr pr.1) pr.2).map PatientRunData.report

/-- `RadiologyReportGenerator.process_batch_async` of
radiology_agent_system.py (banners carry the 1-based case number). -/
def processBatchRun (backend : Backend) (ap : AgentPrompts) (innerArr : Nat → List Nat)
    (batchArrival : List Nat) (inputs : List String) (date : String) :
    Except PyErr BatchRun :=
  match gatherE (caseReportsE backend ap innerArr inputs) batchArrival with
  | Except.error e => Except.error e
  | Except.ok reports =>
    let blocks := ((List.range reports.length).zip reports).map fun pr =>
      eqBanner ++ "\nPATIENT " ++ toString (pr.1 + 1) ++ "\n" ++ eqBanner ++ "\n\n" ++ pr.2
    Except.ok
      { reports := reports
        blocks := blocks
        combined := String.intercalate "\n\n\n" blocks
        outputFile := "./output/radiology_reports_" ++ date ++ ".txt" }

end AgentSys

deriving instance DecidableEq for Except

/-! ### Concrete fixtures used by witnesses and counterexamples -/

/-- A concrete instruction-text assignment used by concrete runs. -/
def apX : AgentPrompts :=
  ⟨"SPLIT", "LIV", "GB", "PAN", "SPL", "KID", "AOR", "OTH", "IMP"⟩

/-- Backend for the three-case batch scenario: segmentation of case F1 and
case F3 succeeds with a liver-only JSON document, segmentation of case F2
fails with a rate-limit error on every attempt (a permanent segmentation
failure), the two liver section calls succeed, and every other call (the
impression calls) returns "IMP". -/
def backendS : Backend := fun p _ =>
  if p = rgSplitPrompt "F1" then CallOutcome.success "\x7b\"liver\": \"L1\"\x7d"
  else if p = rgSplitPrompt "F2" then CallOutcome.failure ⟨true, false, false, false, false⟩
  else if p = rgSplitPrompt "F3" then CallOutcome.success "\x7b\"liver\": \"L3\"\x7d"
  else if p = fullPrompt apX.liver (liverPrompt "L1") then CallOutcome.success "R1"
  else if p = fullPrompt apX.liver (liverPrompt "L3") then CallOutcome.success "R3"
  else CallOutcome.success "IMP"

/-- The three-case batch input. -/
def inputs3 : List PatientInput :=
  [⟨"F1", "Abdomen", "P1"⟩, ⟨"F2", "Abdomen", "P2"⟩, ⟨"F3", "Abdomen", "P3"⟩]

/-- The three generator-variant case reports of the scenario: cases 1 and 3
fully populated with their liver section text, case 2 the degraded
near-empty report (no sections, impression only). -/
def scenarioReports : List String :=
  [ "ULTRASOUND ABDOMEN\n\nR1\n\nIMPRESSION:\nIMP\n",
    "ULTRASOUND ABDOMEN\n\n\n\nIMPRESSION:\nIMP\n",
    "ULTRASOUND ABDOMEN\n\nR3\n\nIMPRESSION:\nIMP\n" ]

/-- Backend for the agent-system batch counterexample: case F2's
segmentation call fails with a rate-limit error on every attempt, every
other call succeeds with a liver-only JSON document. -/
def backendA : Backend := fun p _ =>
  if p = fullPrompt apX.splitter (aSplitPrompt "F2") then
    CallOutcome.failure ⟨true, false, false, false, false⟩
  else CallOutcome.success "\x7b\"liver\": \"L\"\x7d"

/-! ### Supporting lemmas about positional reassembly -/

/-- Association lookup is stable under permutation when keys are distinct. -/
theorem lookupIdx_perm {l₁ l₂ : List (Nat × String)} (h : l₁.Perm l₂) :
    ∀ k, (l₁.map Prod.fst).Nodup → lookupIdx k l₁ = lookupIdx k l₂ := by
  induction h with
  | nil => intro k _; rfl
  | cons x h ih =>
    intro k hnd
    have hnd' : ((List.map Prod.fst _).Nodup) :=
      (List.nodup_cons.mp (by simpa using hnd)).2
    simp only [lookupIdx]
    split
    · rfl
    · exact ih k hnd'
  | swap x y l =>
    intro k hnd
    have hxy : y.1 ≠ x.1 := by
      have h' := hnd
      simp only [List.map_cons, List.nodup_cons, List.mem_cons, not_or] at h'
      exact h'.1.1
    simp only [lookupIdx]
    by_cases hy : y.1 = k <;> by_cases hx : x.1 = k <;> simp [hx, hy]
    exact absurd (hy.trans hx.symm) hxy
  | trans h₁ h₂ ih₁ ih₂ =>
    intro k hnd
    refine (ih₁ k hnd).trans (ih₂ k ?_)
    exact ((h₁.map Prod.fst).nodup_iff).mp hnd

/-- `completionPairs` as a `filterMap`, for permutation reasoning. -/
theorem completionPairs_eq_filterMap (results : List String) (idxs : List Nat) :
    completionPairs results idxs
      = idxs.filterMap fun i => (results[i]?).map fun r => (i, r) := by
  induction idxs with
  | nil => rfl
  | cons j rest ih =>
    cases hj : results[j]? with
    | none => simp [completionPairs, hj, List.filterMap_cons, ih]
    | some r => simp [completionPairs, hj, List.filterMap_cons, ih]

/-- Looking up a position that completed recovers that task's own result. -/
theorem lookupIdx_completionPairs (results : List String) :
    ∀ (idxs : List Nat) (i : Nat), i ∈ idxs → i < results.length →
      lookupIdx i (completionPairs results idxs) = results[i]? := by
  intro idxs
  induction idxs with
  | nil => intro i hi; exact absurd hi (List.not_mem_nil i)
  | cons j rest ih =>
    intro i hi hlen
    rcases List.mem_cons.mp hi with he | hr
    · subst he
      have hr' : results[i]? = some results[i] := List.getElem?_eq_getElem hlen
      simp [completionPairs, hr', lookupIdx]
    · cases hj : results[j]? with
      | none => simpa [completionPairs, hj] using ih i hr hlen
      | some r =>
        by_cases hij : j = i
        · subst hij
          simp [completionPairs, hj, lookupIdx]
        · simpa [completionPairs, hj, lookupIdx, hij] using ih i hr hlen

/-- The completed positions are the in-range arrival entries. -/
theorem completionPairs_keys (results : List String) (idxs : List Nat) :
    (completionPairs results idxs).map Prod.fst
      = idxs.filter fun i => (results[i]?).isSome := by
  induction idxs with
  | nil => rfl
  | cons j rest ih =>
    cases hj : results[j]? with
    | none => simp [completionPairs, hj, List.filter_cons, ih]
    | some r => simp [completionPairs, hj, List.filter_cons, ih]

/-- `asyncio.gather` reassembles by position: for every completion order
that is a permutation of the task positions, the gathered list is the
task-order result list. -/
theorem gather_perm (results : List String) (arrival : List Nat)
    (h : arrival.Perm (List.range results.length)) :
    gather results arrival = results := by
  have hperm : (completionPairs results arrival).Perm
      (completionPairs results (List.range results.length)) := by
    rw [completionPairs_eq_filterMap, completionPairs_eq_filterMap]
    exact h.filterMap _
  have hnd : ((completionPairs results arrival).map Prod.fst).Nodup := by
    rw [completionPairs_keys]
    exact (h.nodup_iff.mpr (List.nodup_range _)).filter _
  apply List.ext_get
  · simp [gather]
  · intro i h1 h2
    have hi : i < results.length := by simpa [gather] using h1
    have hkey : lookupIdx i (completionPairs results arrival) = results[i]? := by
      rw [lookupIdx_perm hperm i hnd]
      exact lookupIdx_completionPairs results _ i (List.mem_range.mpr hi) hi
    have hr' : results[i]? = some results[i] := List.getElem?_eq_getElem hi
    simp [gather, hkey, hr']

/-- `asyncio.gather` under the canonical completion order is the identity. -/
theorem gather_range (results : List String) :
    gather results (List.range results.length) = results :=
  gather_perm results _ (List.Perm.refl _)

/-- Every run of the retry loop that starts with as much fuel as remaining
attempts returns from inside the loop body: a success text of some attempt,
or one of the three in-loop fallbacks. -/
theorem genAttempts_returns_in_loop (backend : Nat → CallOutcome) (maxRetries d : Nat) :
    ∀ fuel attempt, attempt + fuel = maxRetries → 1 ≤ fuel →
      ((∃ i, attempt ≤ i ∧ i < maxRetries ∧
          backend i = CallOutcome.success (genAttempts backend maxRetries d attempt fuel).text) ∨
        (genAttempts backend maxRetries d attempt fuel).text = rateLimitFallback ∨
        (genAttempts backend maxRetries d attempt fuel).text = finishReasonFallback ∨
        (genAttempts backend maxRetries d attempt fuel).text = genericFallback) := by
  intro fuel
  induction fuel with
  | zero => intro attempt _ h1; omega
  | succ n ih =>
    intro attempt hsum _
    cases hb : backend attempt with
    | success t =>
      exact Or.inl ⟨attempt, le_refl _, by omega, by simp [genAttempts, hb]⟩
    | failure e =>
      by_cases hrate : (e.has429QuotaRateLimit || e.hasResourceExhausted) = true
      · by_cases hlt : attempt < maxRetries - 1
        · have htext : (genAttempts backend maxRetries d attempt (n + 1)).text
              = (genAttempts backend maxRetries d (attempt + 1) n).text := by
            simp [genAttempts, hb, hrate, hlt]
          rcases ih (attempt + 1) (by omega) (by omega) with ⟨i, hi1, hi2, hi3⟩ | h | h | h
          · exact Or.inl ⟨i, by omega, hi2, by rw [htext]; exact hi3⟩
          · exact Or.inr (Or.inl (htext.trans h))
          · exact Or.inr (Or.inr (Or.inl (htext.trans h)))
          · exact Or.inr (Or.inr (Or.inr (htext.trans h)))
        · exact Or.inr (Or.inl (by simp [genAttempts, hb, hrate, hlt]))
      · by_cases hconn : e.hasConnectivityMarker = true
        · by_cases hlt : attempt < maxRetries - 1
          · have htext : (genAttempts backend maxRetries d attempt (n + 1)).text
                = (genAttempts backend maxRetries d (attempt + 1) n).text := by
              simp [genAttempts, hb, hrate, hconn, hlt]
            rcases ih (attempt + 1) (by omega) (by omega) with ⟨i, hi1, hi2, hi3⟩ | h | h | h
            · exact Or.inl ⟨i, by omega, hi2, by rw [htext]; exact hi3⟩
            · exact Or.inr (Or.inl (htext.trans h))
            · exact Or.inr (Or.inr (Or.inl (htext.trans h)))
            · exact Or.inr (Or.inr (Or.inr (htext.trans h)))
          · have htext : (genAttempts backend maxRetries d attempt (n + 1)).text
                = nonRetryText e := by
              simp [genAttempts, hb, hrate, hconn, hlt]
            by_cases hv : (e.isValueError && e.hasFinishReason) = true
            · exact Or.inr (Or.inr (Or.inl (by rw [htext]; simp [nonRetryText, hv])))
            · exact Or.inr (Or.inr (Or.inr (by rw [htext]; simp [nonRetryText, hv])))
        · have htext : (genAttempts backend maxRetries d attempt (n + 1)).text
              = nonRetryText e := by
            simp [genAttempts, hb, hrate, hconn]
          by_cases hv : (e.isValueError && e.hasFinishReason) = true
          · exact Or.inr (Or.inr (Or.inl (by rw [htext]; simp [nonRetryText, hv])))
          · exact Or.inr (Or.inr (Or.inr (by rw [htext]; simp [nonRetryText, hv])))

/-! ### Claim theorems: the GenerationClient retry loop -/

/-- C4: a backend that fails with a rate-limit-class error on every call
makes `generate_response_async` perform exactly `max_retries = 5` calls,
sleeping `initial_delay * 2 ** attempt` between consecutive attempts, and
return the rate-limit fallback string (no exception: the function is
total). -/
theorem C4_retry_exhaustion (backend : Backend) (prompt sys : String) (d : Nat)
    (h : ∀ i, i < 5 → ∃ e : GenError,
      backend (fullPrompt sys prompt) i = CallOutcome.failure e ∧
      (e.has429QuotaRateLimit || e.hasResourceExhausted) = true) :
    generateResponse backend 5 d prompt sys =
      { text := rateLimitFallback, calls := 5,
        delays := [d * 2 ^ 0, d * 2 ^ 1, d * 2 ^ 2, d * 2 ^ 3] } := by
  obtain ⟨e0, hb0, hm0⟩ := h 0 (by norm_num)
  obtain ⟨e1, hb1, hm1⟩ := h 1 (by norm_num)
  obtain ⟨e2, hb2, hm2⟩ := h 2 (by norm_num)
  obtain ⟨e3, hb3, hm3⟩ := h 3 (by norm_num)
  obtain ⟨e4, hb4, hm4⟩ := h 4 (by norm_num)
  simp [generateResponse, genAttempts, hb0, hb1, hb2, hb3, hb4,
    hm0, hm1, hm2, hm3, hm4]

/-- Witness for C4 at a concrete always-rate-limited backend. -/
theorem C4_retry_exhaustion_witness :
    (∀ i, i < 5 → ∃ e : GenError,
      (fun _ _ => CallOutcome.failure ⟨true, false, false, false, false⟩ : Backend)
          (fullPrompt "S" "P") i = CallOutcome.failure e ∧
      (e.has429QuotaRateLimit || e.hasResourceExhausted) = true) ∧
    generateResponse (fun _ _ => CallOutcome.failure ⟨true, false, false, false, false⟩)
        5 1 "P" "S" =
      { text := rateLimitFallback, calls := 5,
        delays := [1 * 2 ^ 0, 1 * 2 ^ 1, 1 * 2 ^ 2, 1 * 2 ^ 3] } :=
  ⟨fun _ _ => ⟨⟨true, false, false, false, false⟩, rfl, rfl⟩,
    C4_retry_exhaustion _ "P" "S" 1 (fun _ _ => ⟨⟨true, false, false, false, false⟩, rfl, rfl⟩)⟩

/-- C5: a backend that fails with a rate-limit-class error on the first `k`
calls (`k < 5`) and then succeeds makes `generate_response_async` perform
exactly `k + 1` calls with delays `d·2⁰, d·2¹, …` between consecutive
attempts, and return the successful text. -/
theorem C5_retry_success (backend : Backend) (prompt sys : String) (d k : Nat) (t : String)
    (hk : k < 5)
    (hfail : ∀ i, i < k → ∃ e : GenError,
      backend (fullPrompt sys prompt) i = CallOutcome.failure e ∧
      (e.has429QuotaRateLimit || e.hasResourceExhausted) = true)
    (hsucc : backend (fullPrompt sys prompt) k = CallOutcome.success t) :
    generateResponse backend 5 d prompt sys =
      { text := t, calls := k + 1, delays := (List.range k).map fun i => d * 2 ^ i } := by
  interval_cases k
  · simp [generateResponse, genAttempts, hsucc]
  · obtain ⟨e0, hb0, hm0⟩ := hfail 0 (by norm_num)
    simp [generateResponse, genAttempts, hb0, hm0, hsucc, List.range_succ]
  · obtain ⟨e0, hb0, hm0⟩ := hfail 0 (by norm_num)
    obtain ⟨e1, hb1, hm1⟩ := hfail 1 (by norm_num)
    simp [generateResponse, genAttempts, hb0, hb1, hm0, hm1, hsucc, List.range_succ]
  · obtain ⟨e0, hb0, hm0⟩ := hfail 0 (by norm_num)
    obtain ⟨e1, hb1, hm1⟩ := hfail 1 (by norm_num)
    obtain ⟨e2, hb2, hm2⟩ := hfail 2 (by norm_num)
    simp [generateResponse, genAttempts, hb0, hb1, hb2, hm0, hm1, hm2, hsucc,
      List.range_succ]
  · obtain ⟨e0, hb0, hm0⟩ := hfail 0 (by norm_num)
    obtain ⟨e1, hb1, hm1⟩ := hfail 1 (by norm_num)
    obtain ⟨e2, hb2, hm2⟩ := hfail 2 (by norm_num)
    obtain ⟨e3, hb3, hm3⟩ := hfail 3 (by norm_num)
    simp [generateResponse, genAttempts, hb0, hb1, hb2, hb3, hm0, hm1, hm2, hm3,
      hsucc, List.range_succ]

/-- Witness for C5 at `k = 2` and a concrete fail-twice-then-succeed
backend. -/
theorem C5_retry_success_witness :
    (2 < 5) ∧
    generateResponse
        (fun _ i => if i < 2 then CallOutcome.failure ⟨true, false, false, false, false⟩
          else CallOutcome.success "generated text")
        5 1 "P" "S" =
      { text := "generated text", calls := 2 + 1,
        delays := (List.range 2).map fun i => 1 * 2 ^ i } := by
  refine ⟨by norm_num, C5_retry_success _ "P" "S" 1 2 "generated text" (by norm_num) ?_ ?_⟩
  · intro i hi
    exact ⟨⟨true, false, false, false, false⟩, by simp [hi], rfl⟩
  · simp

/-- C6: a backend whose first call raises the content-policy error (a
`ValueError` mentioning `finish_reason`, with no retryable marker) makes
`generate_response_async` perform exactly 1 call, no retry and no backoff
sleep, and return the fixed content-policy fallback string. -/
theorem C6_content_policy_no_retry (backend : Backend) (prompt sys : String) (d : Nat)
    (e : GenError)
    (hb : backend (fullPrompt sys prompt) 0 = CallOutcome.failure e)
    (h1 : e.has429QuotaRateLimit = false) (h2 : e.hasResourceExhausted = false)
    (h3 : e.hasConnectivityMarker = false)
    (h4 : e.isValueError = true) (h5 : e.hasFinishReason = true) :
    generateResponse backend 5 d prompt sys =
      { text := finishReasonFallback, calls := 1, delays := [] } := by
  simp [generateResponse, genAttempts, hb, h1, h2, h3, nonRetryText, h4, h5]

/-- Witness for C6 at a concrete content-policy-blocked backend. -/
theorem C6_content_policy_no_retry_witness :
    ((fun _ _ => CallOutcome.failure ⟨false, false, false, true, true⟩ : Backend)
        (fullPrompt "S" "P") 0 = CallOutcome.failure ⟨false, false, false, true, true⟩) ∧
    generateResponse (fun _ _ => CallOutcome.failure ⟨false, false, false, true, true⟩)
        5 1 "P" "S" =
      { text := finishReasonFallback, calls := 1, delays := [] } :=
  ⟨rfl, C6_content_policy_no_retry _ "P" "S" 1 ⟨false, false, false, true, true⟩
    rfl rfl rfl rfl rfl rfl⟩

/-- C9: the retry loop always returns from inside the loop body — the
post-loop fallback string is unreachable (whatever the backend does, the
returned text is a backend success text or one of the three in-loop
fallbacks, and none of those fallbacks is the post-loop string); in
particular a connectivity-class error on every attempt, including the
final one, yields the generic fallback, not a connectivity-specific
string. -/
theorem C9_post_loop_unreachable (backend : Backend) (prompt sys : String) (d : Nat) :
    ((∃ i, i < 5 ∧ backend (fullPrompt sys prompt) i =
        CallOutcome.success (generateResponse backend 5 d prompt sys).text) ∨
      (generateResponse backend 5 d prompt sys).text = rateLimitFallback ∨
      (generateResponse backend 5 d prompt sys).text = finishReasonFallback ∨
      (generateResponse backend 5 d prompt sys).text = genericFallback) ∧
    (rateLimitFallback ≠ exhaustedFallback ∧ finishReasonFallback ≠ exhaustedFallback ∧
      genericFallback ≠ exhaustedFallback) ∧
    ((∀ i, i < 5 → ∃ e : GenError,
        backend (fullPrompt sys prompt) i = CallOutcome.failure e ∧
        e.has429QuotaRateLimit = false ∧ e.hasResourceExhausted = false ∧
        e.hasConnectivityMarker = true ∧ (e.isValueError && e.hasFinishReason) = false) →
      generateResponse backend 5 d prompt sys =
        { text := genericFallback, calls := 5,
          delays := [d * 2 ^ 0, d * 2 ^ 1, d * 2 ^ 2, d * 2 ^ 3] }) := by
  refine ⟨?_, ⟨by decide, by decide, by decide⟩, ?_⟩
  · rcases genAttempts_returns_in_loop (backend (fullPrompt sys prompt)) 5 d 5 0 rfl
        (by norm_num) with ⟨i, _, hi2, hi3⟩ | h | h | h
    · exact Or.inl ⟨i, hi2, hi3⟩
    · exact Or.inr (Or.inl h)
    · exact Or.inr (Or.inr (Or.inl h))
    · exact Or.inr (Or.inr (Or.inr h))
  · intro h
    obtain ⟨e0, hb0, hr0, hx0, hc0, hv0⟩ := h 0 (by norm_num)
    obtain ⟨e1, hb1, hr1, hx1, hc1, hv1⟩ := h 1 (by norm_num)
    obtain ⟨e2, hb2, hr2, hx2, hc2, hv2⟩ := h 2 (by norm_num)
    obtain ⟨e3, hb3, hr3, hx3, hc3, hv3⟩ := h 3 (by norm_num)
    obtain ⟨e4, hb4, hr4, hx4, hc4, hv4⟩ := h 4 (by norm_num)
    simp [generateResponse, genAttempts, hb0, hb1, hb2, hb3, hb4,
      hr0, hr1, hr2, hr3, hr4, hx0, hx1, hx2, hx3, hx4,
      hc0, hc1, hc2, hc3, hc4, nonRetryText, hv0, hv1, hv2, hv3, hv4]

/-- Witness for C9 at a concrete always-connectivity-failing backend. -/
theorem C9_post_loop_unreachable_witness :
    generateResponse (fun _ _ => CallOutcome.failure ⟨false, false, true, false, false⟩)
        5 1 "P" "S" =
      { text := genericFallback, calls := 5,
        delays := [1 * 2 ^ 0, 1 * 2 ^ 1, 1 * 2 ^ 2, 1 * 2 ^ 3] } :=
  (C9_post_loop_unreachable
      (fun _ _ => CallOutcome.failure ⟨false, false, true, false, false⟩) "P" "S" 1).2.2
    (fun _ _ => ⟨⟨false, false, true, false, false⟩, rfl, rfl, rfl, rfl, rfl⟩)

/-! ### Claim theorems: segmentation (`SplitterAgent.split`) -/

/-- C2 counterexample: with a backend whose response is not JSON and
contains no braced substring, the agent-system `split` raises
`JSONDecodeError` past its boundary instead of returning an all-empty
record, refuting the claim that segmentation failure never raises. -/
theorem C2_counterexample :
    AgentSys.splitRun (fun _ _ => CallOutcome.success "not json") apX "x"
      = (Except.error PyErr.jsonDecodeError, 1) := by
  rfl

/-- C2 (amended): the generator-variant `split` parses the response
directly as JSON only — a parse failure yields the all-empty record with no
brace-substring second attempt and no exception, while a successful parse
is consumed by the field accesses (which raise only for a non-object
document); the agent-system-variant `split` parses the greedy
first-`\x7b`-to-last-`\x7d` substring when present (otherwise the whole
response) and raises `JSONDecodeError` when that parse fails. -/
theorem C2_parse_fallback_amended (backend : Backend) (r patient_data : String)
    (hne : pyStrip patient_data ≠ "")
    (hb : backend (rgSplitPrompt patient_data) 0 = CallOutcome.success r) :
    (jsonParse r = none →
      RG.splitRun backend patient_data = (Except.ok emptyPatientInfo, 1)) ∧
    (∀ j, jsonParse r = some j →
      RG.splitRun backend patient_data = (patientInfoOfJson j, 1)) ∧
    (∀ ap : AgentPrompts,
      backend (fullPrompt ap.splitter (aSplitPrompt patient_data)) 0
          = CallOutcome.success r →
      AgentSys.splitRun backend ap patient_data =
        (match jsonParse ((extractBraces r).getD r) with
          | some j => patientInfoOfJson j
          | none => Except.error PyErr.jsonDecodeError, 1)) := by
  refine ⟨?_, ?_, ?_⟩
  · intro hj
    simp [RG.splitRun, hne, hb, hj]
  · intro j hj
    simp [RG.splitRun, hne, hb, hj]
  · intro ap hb'
    have hg : generateResponse backend 5 1 (aSplitPrompt patient_data) ap.splitter
        = { text := r, calls := 1, delays := [] } := by
      simp [generateResponse, genAttempts, hb']
    cases hE : extractBraces r with
    | none =>
      cases hJ : jsonParse r with
      | none => simp [AgentSys.splitRun, hg, hE, hJ]
      | some j => simp [AgentSys.splitRun, hg, hE, hJ]
    | some sub =>
      cases hJ : jsonParse sub with
      | none => simp [AgentSys.splitRun, hg, hE, hJ]
      | some j => simp [AgentSys.splitRun, hg, hE, hJ]

/-- Witness for C2 (amended) at a concrete unparseable response. -/
theorem C2_parse_fallback_amended_witness :
    pyStrip "data" ≠ "" ∧
    ((fun _ _ => CallOutcome.success "oops" : Backend) (rgSplitPrompt "data") 0
      = CallOutcome.success "oops") ∧
    ((jsonParse "oops" = none →
      RG.splitRun (fun _ _ => CallOutcome.success "oops") "data"
        = (Except.ok emptyPatientInfo, 1)) ∧
    (∀ j, jsonParse "oops" = some j →
      RG.splitRun (fun _ _ => CallOutcome.success "oops") "data"
        = (patientInfoOfJson j, 1)) ∧
    (∀ ap : AgentPrompts,
      (fun _ _ => CallOutcome.success "oops" : Backend)
          (fullPrompt ap.splitter (aSplitPrompt "data")) 0
          = CallOutcome.success "oops" →
      AgentSys.splitRun (fun _ _ => CallOutcome.success "oops") ap "data" =
        (match jsonParse ((extractBraces "oops").getD "oops") with
          | some j => patientInfoOfJson j
          | none => Except.error PyErr.jsonDecodeError, 1))) :=
  ⟨by decide, rfl,
    C2_parse_fallback_amended (fun _ _ => CallOutcome.success "oops") "oops" "data"
      (by decide) rfl⟩

/-- C7 counterexample: on empty raw text the agent-system `split` has no
short-circuit — it performs a backend generation call (here one call, whose
response happens to parse to the empty record), refuting "zero backend
generation calls" for every split operation of the repository. -/
theorem C7_counterexample :
    AgentSys.splitRun (fun _ _ => CallOutcome.success "\x7b\x7d") apX ""
      = (Except.ok emptyPatientInfo, 1) := by
  rfl

/-- C7 (amended): in the generator variant, empty or whitespace-only raw
text short-circuits to the all-empty record with zero backend calls; the
agent-system variant lacks this check and calls the backend even on empty
input. -/
theorem C7_empty_input_short_circuit (backend : Backend) (patient_data : String)
    (h : pyStrip patient_data = "") :
    RG.splitRun backend patient_data = (Except.ok emptyPatientInfo, 0) := by
  simp [RG.splitRun, h]

/-- Witness for C7 (amended) at the empty input. -/
theorem C7_empty_input_short_circuit_witness :
    pyStrip "" = "" ∧
    RG.splitRun (fun _ _ => CallOutcome.success "\x7b\x7d") ""
      = (Except.ok emptyPatientInfo, 0) :=
  ⟨by decide,
    C7_empty_input_short_circuit (fun _ _ => CallOutcome.success "\x7b\x7d") "" (by decide)⟩

/-! ### Claim theorems: dispatch ordering and skipping -/

/-- The dynamic-call list as a filter-then-map over the discovery order. -/
theorem dynamicCalls_eq_filter (ap : AgentPrompts) (info : PatientInfo) :
    dynamicCalls ap info
      = (info.others.filter fun o => !(pyStrip o.findings == "")).map
          fun o => (⟨othersPrompt o.organ o.findings info.comment, ap.others⟩ : SectionCall) := by
  have key : ∀ l : List OtherOrgan,
      (l.filterMap fun o =>
          if pyStrip o.findings = "" then none
          else some (⟨othersPrompt o.organ o.findings info.comment, ap.others⟩ : SectionCall))
        = (l.filter fun o => !(pyStrip o.findings == "")).map
            fun o => (⟨othersPrompt o.organ o.findings info.comment, ap.others⟩ : SectionCall) := by
    intro l
    induction l with
    | nil => rfl
    | cons a t ih =>
      by_cases h : pyStrip a.findings = "" <;>
        simp [List.filterMap_cons, List.filter_cons, h, ih]
  exact key info.others

/-- C3: for every case record and every completion order of the
concurrently dispatched canonical wave (any permutation of the task
positions), the aggregated document lists the section texts in static
canonical order followed by dynamic discovery order — never in completion
order. -/
theorem C3_ordering_invariant (backend : Backend) (ap : AgentPrompts) (info : PatientInfo)
    (header : String) (arrival : List Nat)
    (h : arrival.Perm (List.range (canonicalCalls ap info).length)) :
    (processInfoRun backend ap arrival info header).fullReport
      = String.intercalate "\n\n"
          ((canonicalCalls ap info ++ dynamicCalls ap info).map (sectionText backend)) := by
  have hg : gather ((canonicalCalls ap info).map (sectionText backend)) arrival
      = (canonicalCalls ap info).map (sectionText backend) :=
    gather_perm _ _ (by simpa using h)
  simp [processInfoRun, hg]

/-- Witness for C3: three canonical sections A, B, C dispatched with the
adversarial completion order "C first, A last". -/
theorem C3_ordering_invariant_witness :
    ([2, 1, 0] : List Nat).Perm
      (List.range (canonicalCalls apX { liver := "A", gb := "B", pancreas := "C" }).length) ∧
    (processInfoRun (fun _ _ => CallOutcome.success "T") apX [2, 1, 0]
        { liver := "A", gb := "B", pancreas := "C" } "ULTRASOUND ABDOMEN").fullReport
      = String.intercalate "\n\n"
          ((canonicalCalls apX { liver := "A", gb := "B", pancreas := "C" }
              ++ dynamicCalls apX { liver := "A", gb := "B", pancreas := "C" }).map
            (sectionText fun _ _ => CallOutcome.success "T")) :=
  ⟨by decide,
    C3_ordering_invariant (fun _ _ => CallOutcome.success "T") apX
      { liver := "A", gb := "B", pancreas := "C" } "ULTRASOUND ABDOMEN" [2, 1, 0] (by decide)⟩

/-- C8: a canonical section whose stripped text is empty, and a dynamic
entry whose stripped findings are empty, produce no task, trigger no
backend call, and contribute no text: the dispatched wave is exactly the
emptiness filter of the canonical fields, the sequential dynamic calls are
exactly the emptiness filter of the discovery list, and the aggregated
document is built from exactly those calls. -/
theorem C8_empty_sections_skipped (backend : Backend) (ap : AgentPrompts)
    (info : PatientInfo) (header : String) :
    (processInfoRun backend ap (List.range (canonicalCalls ap info).length) info
        header).wave
      = ((canonicalAll ap info).filter fun pr => !(pyStrip pr.1 == "")).map Prod.snd ∧
    dynamicCalls ap info
      = (info.others.filter fun o => !(pyStrip o.findings == "")).map
          (fun o => (⟨othersPrompt o.organ o.findings info.comment, ap.others⟩ : SectionCall)) ∧
    (processInfoRun backend ap (List.range (canonicalCalls ap info).length) info
        header).fullReport
      = String.intercalate "\n\n"
          ((((canonicalAll ap info).filter fun pr => !(pyStrip pr.1 == "")).map Prod.snd
              ++ dynamicCalls ap info).map (sectionText backend)) := by
  have hwave : canonicalCalls ap info
      = ((canonicalAll ap info).filter fun pr => !(pyStrip pr.1 == "")).map Prod.snd := by
    by_cases h1 : pyStrip info.liver = "" <;>
    by_cases h2 : pyStrip info.gb = "" <;>
    by_cases h3 : pyStrip info.pancreas = "" <;>
    by_cases h4 : pyStrip info.spleen = "" <;>
    by_cases h5 : pyStrip info.kidney = "" <;>
    by_cases h6 : pyStrip info.aorta = "" <;>
      simp [canonicalCalls, canonicalAll, List.filter_cons, h1, h2, h3, h4, h5, h6]
  have hg : gather ((canonicalCalls ap info).map (sectionText backend))
        (List.range (canonicalCalls ap info).length)
      = (canonicalCalls ap info).map (sectionText backend) := by
    have := gather_range ((canonicalCalls ap info).map (sectionText backend))
    simpa [List.length_map] using this
  refine ⟨by simp [processInfoRun, hwave], dynamicCalls_eq_filter ap info, ?_⟩
  have hfull : (processInfoRun backend ap (List.range (canonicalCalls ap info).length) info
        header).fullReport
      = String.intercalate "\n\n"
          ((canonicalCalls ap info).map (sectionText backend)
            ++ (dynamicCalls ap info).map (sectionText backend)) := by
    simp [processInfoRun, hg]
  rw [hfull, hwave]
  simp [List.map_map, List.map_append]

/-- C10: when dynamic entries are present, every dynamic section call
appears in the trace strictly after the single concurrent canonical wave,
one sequential call at a time in discovery order (never inside the wave),
and each dynamic call's prompt contains its findings text followed by the
case comment. -/
theorem C10_dynamic_after_wave (backend : Backend) (ap : AgentPrompts)
    (arrival : List Nat) (info : PatientInfo) (header : String)
    (hne : info.others ≠ []) :
    (processInfoRun backend ap arrival info header).trace
      = Event.wave (canonicalCalls ap info)
          :: ((dynamicCalls ap info).map Event.seqCall
            ++ [Event.impCall (processInfoRun backend ap arrival info header).impPrompt]) ∧
    (∀ o ∈ info.others, pyStrip o.findings ≠ "" →
      ∃ s₁ s₂ s₃, othersPrompt o.organ o.findings info.comment
        = s₁ ++ (o.findings ++ (s₂ ++ (info.comment ++ s₃)))) := by
  constructor
  · simp [processInfoRun]
  · intro o _ _
    refine ⟨"Generate a radiology report section for " ++ o.organ
        ++ " based on these findings:\n\n",
      "\nAdditional Comments: - Look at the part of the additional comments section that is relevant to "
        ++ o.organ ++ " findings:\n",
      "\n\n\nProvide only the report text.", ?_⟩
    simp [othersPrompt, String.append_assoc]

/-- Witness for C10 at a case record with one dynamic entry. -/
theorem C10_dynamic_after_wave_witness :
    ({ liver := "A", others := [⟨"Thyroid", "F"⟩], comment := "CMT" } : PatientInfo).others
        ≠ [] ∧
    ((processInfoRun (fun _ _ => CallOutcome.success "T") apX [0]
        { liver := "A", others := [⟨"Thyroid", "F"⟩], comment := "CMT" } "H").trace
      = Event.wave (canonicalCalls apX
            { liver := "A", others := [⟨"Thyroid", "F"⟩], comment := "CMT" })
          :: ((dynamicCalls apX
                { liver := "A", others := [⟨"Thyroid", "F"⟩], comment := "CMT" }).map
              Event.seqCall
            ++ [Event.impCall (processInfoRun (fun _ _ => CallOutcome.success "T") apX [0]
                { liver := "A", others := [⟨"Thyroid", "F"⟩], comment := "CMT" }
                "H").impPrompt]) ∧
    (∀ o ∈ ({ liver := "A", others := [⟨"Thyroid", "F"⟩], comment := "CMT" }
          : PatientInfo).others,
      pyStrip o.findings ≠ "" →
      ∃ s₁ s₂ s₃, othersPrompt o.organ o.findings
          ({ liver := "A", others := [⟨"Thyroid", "F"⟩], comment := "CMT" }
            : PatientInfo).comment
        = s₁ ++ (o.findings ++ (s₂ ++ (("CMT" : String) ++ s₃))))) :=
  ⟨by decide,
    C10_dynamic_after_wave (fun _ _ => CallOutcome.success "T") apX [0]
      { liver := "A", others := [⟨"Thyroid", "F"⟩], comment := "CMT" } "H" (by decide)⟩

/-! ### Claim theorems: batch processing -/

set_option maxRecDepth 20000 in
/-- C1 counterexample: in the agent-system variant, a 3-case batch in which
case 2's segmentation permanently fails (rate-limited on every attempt, so
the retry-exhausted fallback text reaches `json.loads` and raises) does not
return a 3-entry result in input order — the whole batch raises
`JSONDecodeError`, refuting the claim for `process_batch_async` of
radiology_agent_system.py. -/
theorem C1_counterexample :
    AgentSys.processBatchRun backendA apX (fun _ => [0]) [0, 1, 2]
        ["F1", "F2", "F3"] "2024-01-15"
      = Except.error PyErr.jsonDecodeError := by
  decide

/-- C1 (amended): in the generator variant — whose `split` contains the
failure of a case's segmentation instead of raising — the batch returns
exactly one report per input case, bannered and concatenated in original
input order, for every completion order of the case pipelines; a case whose
segmentation permanently fails contributes the degraded near-empty report
while the other cases are unaffected (the witness instantiates exactly the
3-case scenario).  In the agent-system variant a permanent segmentation
failure instead raises out of the batch (see the counterexample). -/
theorem C1_batch_isolation_amended (backend : Backend) (ap : AgentPrompts)
    (innerArr : Nat → List Nat) (inputs : List PatientInput) (date : String)
    (batchArrival : List Nat) (rs : List String)
    (hperm : batchArrival.Perm (List.range inputs.length))
    (hok : RG.caseReportsE backend ap innerArr inputs = rs.map Except.ok) :
    RG.processBatchRun backend ap innerArr batchArrival inputs date
      = Except.ok (RG.mkBatchRun inputs date rs) ∧ rs.length = inputs.length := by
  have hlen : rs.length = inputs.length := by
    have h1 := congrArg List.length hok
    simp [RG.caseReportsE] at h1
    omega
  refine ⟨?_, hlen⟩
  have hfind : batchArrival.findSome? (fun i =>
      match (rs.map Except.ok : List (Except PyErr String))[i]? with
      | some (Except.error e) => some e
      | _ => none) = none := by
    rw [List.findSome?_eq_none_iff]
    intro i _
    have hx : (rs.map Except.ok : List (Except PyErr String))[i]?
        = (rs[i]?).map Except.ok := by
      simp
    cases hy : rs[i]? with
    | none => simp [hx, hy]
    | some a => simp [hx, hy]
  have hunwrap : (rs.map Except.ok : List (Except PyErr String)).map
      (fun r => r.toOption.getD "") = rs := by
    simp [List.map_map, Function.comp_def, Except.toOption]
  simp only [RG.processBatchRun, gatherE, hok, hfind, hunwrap]
  rw [gather_perm rs batchArrival (by rw [hlen]; exact hperm)]

set_option maxRecDepth 20000 in
/-- Witness for C1 (amended): the 3-case scenario with case 2's
segmentation permanently rate-limited, run under the adversarial batch
completion order "case 2 first, case 1 last"; cases 1 and 3 are fully
populated and case 2 is the degraded near-empty report, in input order. -/
theorem C1_batch_isolation_amended_witness :
    ([1, 2, 0] : List Nat).Perm (List.range inputs3.length) ∧
    RG.caseReportsE backendS apX (fun _ => [0]) inputs3
      = scenarioReports.map Except.ok ∧
    (RG.processBatchRun backendS apX (fun _ => [0]) [1, 2, 0] inputs3 "2024-01-15"
        = Except.ok (RG.mkBatchRun inputs3 "2024-01-15" scenarioReports) ∧
      scenarioReports.length = inputs3.length) :=
  ⟨by decide, by decide,
    C1_batch_isolation_amended backendS apX (fun _ => [0]) inputs3 "2024-01-15"
      [1, 2, 0] scenarioReports (by decide) (by decide)⟩

end RadRep
